import Mathlib

/-!
Verification development for the WeatherCast client-side data-access and
state-coordination layer: a shallow embedding of the API cache / request-deduplication
module (`api.ts`) and of the Zustand application store (`src/lib/store.ts`),
together with theorems settling the specification's claims about them.

Conventions of the embedding:
* JS numbers used as coordinates are modelled as rationals (`ℚ`); epoch timestamps as `ℕ`.
* A JS `Map` is modelled as an association list with `mapGet` / `mapSet` / `mapDelete` /
  `mapHas`, mirroring `Map.get` / `Map.set` / `Map.delete` / `Map.has`.
* Opaque provider response payloads are a type parameter `ρ`; the code never inspects them.
* Asynchrony is modelled by splitting each fetch into the synchronous call step
  (`fetchWeatherData` / `searchCities`, which runs up to the point the caller starts
  awaiting) and explicit settlement events (`settleWeatherSuccess` / `settleWeatherFailure`
  and the city analogues) for the moment the underlying combined request settles.
-/

namespace WeatherCast

/-! ## JS `Map` as an association list -/

def mapGet (k : String) : List (String × β) → Option β
  | [] => none
  | (k', v) :: rest => if k' = k then some v else mapGet k rest

def mapSet (k : String) (v : β) : List (String × β) → List (String × β)
  | [] => [(k, v)]
  | (k', v') :: rest => if k' = k then (k, v) :: rest else (k', v') :: mapSet k v rest

def mapDelete (k : String) : List (String × β) → List (String × β)
  | [] => []
  | (k', v') :: rest => if k' = k then mapDelete k rest else (k', v') :: mapDelete k rest

def mapHas (k : String) (m : List (String × β)) : Bool :=
  (mapGet k m).isSome

/-! ## Data model shared between the store and the API layer -/

/-- `Coordinates` from `types/weather`: `{ lat, lon }` with JS numbers modelled as `ℚ`. -/
structure Coordinates where
  lat : ℚ
  lon : ℚ
  deriving DecidableEq

/-- `City` as constructed by `WeatherAPI.searchCities` and stored in the store's
`citySuggestions`: `{ name, country, lat, lon }`. -/
structure City where
  name : String
  country : String
  lat : ℚ
  lon : ℚ
  deriving DecidableEq

/-- `WeatherData` as assembled in `fetchWeatherData`: the three provider responses
(current conditions, forecast, air pollution), each an opaque payload of type `ρ`. -/
structure WeatherData (ρ : Type) where
  currentWeather : ρ
  forecast : ρ
  airPollution : ρ
  deriving DecidableEq

/-! ## Application state container (`src/lib/store.ts`) -/

/-- The `unit` field's two values, `'metric' | 'imperial'`. -/
inductive TempUnit where
  | metric
  | imperial
  deriving DecidableEq

/-- Modelled from the spec: `DEFAULT_COORDINATES` is imported from `@/constants`, a module
not present under `src/`; the spec calls it "the system default location" and fixes no
numeric value, so a fixed placeholder value stands in.  No claim depends on the value,
only on identity with it. -/
def DEFAULT_COORDINATES : Coordinates :=
  { lat := 12.9716, lon := 77.5946 }

/-- The `WeatherState` record of `store.ts` (data fields only; the actions are modelled
as functions below).  `δ` is the type of the opaque weather-data value the store holds. -/
structure WeatherState (δ : Type) where
  coordinates : Coordinates
  weatherData : Option δ
  unit : TempUnit
  isLoading : Bool
  error : Option String
  showLocationDialog : Bool
  isManualSelection : Bool
  geolocationEnabled : Bool
  hasInitialLoad : Bool
  searchQuery : String
  citySuggestions : List City
  isSearching : Bool
  deriving DecidableEq

/-- `initialState` of `store.ts` lines 53-66. -/
def initialState (δ : Type) : WeatherState δ :=
  { coordinates := DEFAULT_COORDINATES
    weatherData := none
    unit := TempUnit.metric
    isLoading := false
    error := none
    showLocationDialog := true
    isManualSelection := false
    geolocationEnabled := false
    hasInitialLoad := false
    searchQuery := ""
    citySuggestions := []
    isSearching := false }

/-- `setCoordinates` (line 75). -/
def setCoordinates (coords : Coordinates) (s : WeatherState δ) : WeatherState δ :=
  { s with coordinates := coords }

/-- `setWeatherData` (line 76). -/
def setWeatherData (data : Option δ) (s : WeatherState δ) : WeatherState δ :=
  { s with weatherData := data }

/-- `setLoading` (line 77). -/
def setLoading (loading : Bool) (s : WeatherState δ) : WeatherState δ :=
  { s with isLoading := loading }

/-- `setError` (line 78). -/
def setError (e : Option String) (s : WeatherState δ) : WeatherState δ :=
  { s with error := e }

/-- `setLocationDialog` (line 79). -/
def setLocationDialog (b : Bool) (s : WeatherState δ) : WeatherState δ :=
  { s with showLocationDialog := b }

/-- `setManualSelection` (line 80): assigns the single field, touching nothing else. -/
def setManualSelection (manual : Bool) (s : WeatherState δ) : WeatherState δ :=
  { s with isManualSelection := manual }

/-- `setGeolocationEnabled` (line 81): assigns the single field, touching nothing else. -/
def setGeolocationEnabled (enabled : Bool) (s : WeatherState δ) : WeatherState δ :=
  { s with geolocationEnabled := enabled }

/-- `setInitialLoad` (line 82). -/
def setInitialLoad (loaded : Bool) (s : WeatherState δ) : WeatherState δ :=
  { s with hasInitialLoad := loaded }

/-- `setSearchQuery` (line 83). -/
def setSearchQuery (query : String) (s : WeatherState δ) : WeatherState δ :=
  { s with searchQuery := query }

/-- `setCitySuggestions` (line 84). -/
def setCitySuggestions (suggestions : List City) (s : WeatherState δ) : WeatherState δ :=
  { s with citySuggestions := suggestions }

/-- `setSearching` (line 85). -/
def setSearching (searching : Bool) (s : WeatherState δ) : WeatherState δ :=
  { s with isSearching := searching }

/-- `updateLocation` (lines 88-104): updates only when at least one axis moved by more
than `0.000001`; otherwise the state is returned unchanged. -/
def updateLocation (lat lon : ℚ) (s : WeatherState δ) : WeatherState δ :=
  if |s.coordinates.lat - lat| > 0.000001 ∨ |s.coordinates.lon - lon| > 0.000001 then
    { s with coordinates := { lat := lat, lon := lon }
             isManualSelection := true
             geolocationEnabled := false
             hasInitialLoad := true
             error := none }
  else
    s

/-- `triggerCurrentLocation` (lines 107-116). -/
def triggerCurrentLocation (s : WeatherState δ) : WeatherState δ :=
  { s with isManualSelection := false
           geolocationEnabled := true
           hasInitialLoad := true
           searchQuery := ""
           citySuggestions := []
           error := none }

/-- `handleLocationPermission` (lines 119-127). -/
def handleLocationPermission (allow : Bool) (s : WeatherState δ) : WeatherState δ :=
  { s with showLocationDialog := false
           geolocationEnabled := allow
           isManualSelection := !allow
           hasInitialLoad := true
           coordinates := if allow then s.coordinates else DEFAULT_COORDINATES }

/-- `reset` (line 130): `set(initialState)` replaces every data field. -/
def reset (_s : WeatherState δ) : WeatherState δ :=
  initialState δ

/-- The store's exposed action set, one constructor per action of `store.ts`. -/
inductive Action (δ : Type) where
  | setCoordinates (coords : Coordinates)
  | setWeatherData (data : Option δ)
  | setLoading (loading : Bool)
  | setError (e : Option String)
  | setLocationDialog (b : Bool)
  | setManualSelection (manual : Bool)
  | setGeolocationEnabled (enabled : Bool)
  | setInitialLoad (loaded : Bool)
  | setSearchQuery (query : String)
  | setCitySuggestions (suggestions : List City)
  | setSearching (searching : Bool)
  | updateLocation (lat lon : ℚ)
  | triggerCurrentLocation
  | handleLocationPermission (allow : Bool)
  | reset
  deriving DecidableEq

/-- Dispatch one store action. -/
def step (s : WeatherState δ) : Action δ → WeatherState δ
  | Action.setCoordinates coords => setCoordinates coords s
  | Action.setWeatherData data => setWeatherData data s
  | Action.setLoading loading => setLoading loading s
  | Action.setError e => setError e s
  | Action.setLocationDialog b => setLocationDialog b s
  | Action.setManualSelection manual => setManualSelection manual s
  | Action.setGeolocationEnabled enabled => setGeolocationEnabled enabled s
  | Action.setInitialLoad loaded => setInitialLoad loaded s
  | Action.setSearchQuery query => setSearchQuery query s
  | Action.setCitySuggestions suggestions => setCitySuggestions suggestions s
  | Action.setSearching searching => setSearching searching s
  | Action.updateLocation lat lon => updateLocation lat lon s
  | Action.triggerCurrentLocation => triggerCurrentLocation s
  | Action.handleLocationPermission allow => handleLocationPermission allow s
  | Action.reset => reset s

/-- Run a sequence of store actions from a state. -/
def runActions (acts : List (Action δ)) (s : WeatherState δ) : WeatherState δ :=
  acts.foldl step s

/-- Actions that never make `isManualSelection` and `geolocationEnabled` simultaneously
true: every action except the two raw flag setters called with `true`. -/
def flagSetterSafe : Action δ → Bool
  | Action.setManualSelection b => !b
  | Action.setGeolocationEnabled b => !b
  | _ => true

/-! ## Data access layer (`api.ts`) -/

/-- `CACHE_DURATION = 5 * 60 * 1000` milliseconds (api.ts line 12). -/
def CACHE_DURATION : ℕ := 5 * 60 * 1000

/-- One cache table entry `{ data, timestamp }` (api.ts lines 13-14). -/
structure CacheEntry (β : Type) where
  data : β
  timestamp : ℕ
  deriving DecidableEq

/-- A JS promise held in a pending-requests table, identified by the id `rid` of the
underlying combined network transaction.  The object starts `pending` and mutates in
place to `resolved` when the transaction fulfills; a map that still references it after
fulfillment therefore hands out the `resolved` promise, whose awaited value is `data`. -/
inductive Promise (β : Type) where
  | pending (rid : ℕ)
  | resolved (rid : ℕ) (data : β)
  deriving DecidableEq

/-- A JS error value as far as `handleError` (api.ts lines 178-190) inspects one:
whether it is an `Error` instance, its `name` and `message`, whether
`axios.isAxiosError` holds of it, and `error.response?.data?.message`. -/
structure JsError where
  isErrorInstance : Bool
  name : String
  message : String
  isAxiosError : Bool
  responseDataMessage : Option String
  deriving DecidableEq

/-- JS `a || b` on strings: `a` unless it is falsy (empty). -/
def jsStringOr (a b : String) : String :=
  if a = "" then b else a

/-- `new Error(message)`. -/
def newError (msg : String) : JsError :=
  { isErrorInstance := true
    name := "Error"
    message := msg
    isAxiosError := false
    responseDataMessage := none }

/-- `WeatherAPI.handleError` (api.ts lines 178-190).  An `AbortError` instance is
returned unchanged; an axios error becomes `new Error(error.response?.data?.message ||
error.message || 'API request failed')` (a missing `response.data.message` and an empty
one are both falsy, hence `Option.getD ""`); anything else becomes
`new Error('An unexpected error occurred')`. -/
def handleError (e : JsError) : JsError :=
  if e.isErrorInstance = true ∧ e.name = "AbortError" then e
  else if e.isAxiosError = true then
    newError (jsStringOr (e.responseDataMessage.getD "") (jsStringOr e.message "API request failed"))
  else newError "An unexpected error occurred"

/-- The spec's error taxonomy (§7) as realised by `handleError`'s three branches:
Cancelled = the AbortError branch, TransportFailure = the axios branch, Unexpected =
the fallback branch. -/
inductive ErrorKind where
  | cancelled
  | transport
  | unexpected
  deriving DecidableEq

/-- Which branch of `handleError` fires for a given error, i.e. how the code classifies
it in the taxonomy. -/
def classifyError (e : JsError) : ErrorKind :=
  if e.isErrorInstance = true ∧ e.name = "AbortError" then ErrorKind.cancelled
  else if e.isAxiosError = true then ErrorKind.transport
  else ErrorKind.unexpected

/-- Modelled from the spec: the rejection value produced when the cancellation signal
aborts the HTTP call.  That value is produced by the HTTP layer, which is outside
`src/`; the code's own branch (api.ts line 179) identifies an aborted call by
`name === 'AbortError'` on an `Error` instance, and the spec says aborting the signal
"yields a Cancelled error", so the abort rejection is modelled as exactly such a value. -/
def abortError : JsError :=
  { isErrorInstance := true
    name := "AbortError"
    message := "The operation was aborted."
    isAxiosError := false
    responseDataMessage := none }

/-- The settlement outcome of an underlying combined network transaction. -/
inductive Outcome (β : Type) where
  | success (d : β)
  | failure (e : JsError)
  deriving DecidableEq

/-- What the caller that created the request receives once it settles (api.ts lines
109-115): the `try { return await request }` yields the data on fulfillment, and the
`catch` rethrows `this.handleError(error)` on rejection. -/
def originatorResult (o : Outcome β) : Except JsError β :=
  match o with
  | Outcome.success d => Except.ok d
  | Outcome.failure e => Except.error (handleError e)

/-- What a caller that joined through the pending table receives (api.ts line 77 and
line 133): the raw promise is returned with no `catch` attached, so fulfillment yields
the same data and rejection delivers the raw, untranslated error. -/
def joinerResult (o : Outcome β) : Except JsError β :=
  match o with
  | Outcome.success d => Except.ok d
  | Outcome.failure e => Except.error e

/-- The whole mutable state of the module: both caches, both pending tables (api.ts
lines 13-18), plus bookkeeping for the model — the next fresh transaction id and the
log of combined network transactions issued so far (one entry per `Promise.all` of the
three weather sub-fetches, or per single city-search call). -/
structure ApiState (ρ : Type) where
  weatherCache : List (String × CacheEntry (WeatherData ρ))
  cityCache : List (String × CacheEntry (List City))
  pendingWeatherRequests : List (String × Promise (WeatherData ρ))
  pendingCityRequests : List (String × Promise (List City))
  nextRid : ℕ
  transactions : List ℕ
  deriving DecidableEq

/-- The empty tables the module starts with. -/
def initialApiState (ρ : Type) : ApiState ρ :=
  { weatherCache := []
    cityCache := []
    pendingWeatherRequests := []
    pendingCityRequests := []
    nextRid := 0
    transactions := [] }

/-- The cache key `` `weather-${lat}-${lon}` `` (api.ts line 67). -/
def weatherCacheKey (lat lon : ℚ) : String :=
  "weather-" ++ toString lat ++ "-" ++ toString lon

/-- The cache key `` `cities-${query}` `` (api.ts line 123). -/
def cityCacheKey (query : String) : String :=
  "cities-" ++ query

/-- What the synchronous part of a fetch call hands its caller. -/
inductive FetchResult (β : Type) where
  | immediate (data : β)
  | joined (p : Promise β)
  | issued (rid : ℕ)
  deriving DecidableEq

/-- api.ts lines 81-107 (and 137-168): create the combined request, register it in the
pending table under the key before it settles, and issue the underlying network
transaction. -/
def issueWeather (cacheKey : String) (s : ApiState ρ) :
    FetchResult (WeatherData ρ) × ApiState ρ :=
  (FetchResult.issued s.nextRid,
    { s with pendingWeatherRequests := mapSet cacheKey (Promise.pending s.nextRid) s.pendingWeatherRequests
             nextRid := s.nextRid + 1
             transactions := s.transactions ++ [s.nextRid] })

/-- api.ts lines 75-107 after the cache check failed: return the pending promise when
one exists, otherwise issue a new request. -/
def fetchWeatherMiss (cacheKey : String) (s : ApiState ρ) :
    FetchResult (WeatherData ρ) × ApiState ρ :=
  match mapGet cacheKey s.pendingWeatherRequests with
  | some p => (FetchResult.joined p, s)
  | none => issueWeather cacheKey s

/-- `WeatherAPI.fetchWeatherData` (api.ts lines 62-115), synchronous part: check the
cache (an entry is live while `now - timestamp < CACHE_DURATION`), else the pending
table, else issue; `now` is the value of `Date.now()` at the cache check. -/
def fetchWeatherData (now : ℕ) (lat lon : ℚ) (s : ApiState ρ) :
    FetchResult (WeatherData ρ) × ApiState ρ :=
  match mapGet (weatherCacheKey lat lon) s.weatherCache with
  | some cached =>
      if now - cached.timestamp < CACHE_DURATION then
        (FetchResult.immediate cached.data, s)
      else fetchWeatherMiss (weatherCacheKey lat lon) s
  | none => fetchWeatherMiss (weatherCacheKey lat lon) s

/-- Mark the promise stored under a key as resolved with `d` (the promise object
itself settles; whether a table still references it is a separate matter). -/
def resolvePromise (cacheKey : String) (d : β) (m : List (String × Promise β)) :
    List (String × Promise β) :=
  match mapGet cacheKey m with
  | some (Promise.pending rid) => mapSet cacheKey (Promise.resolved rid d) m
  | _ => m

/-- Successful settlement of a weather request (api.ts lines 94-104 and 110): the
`.then` continuation assembles the `WeatherData` from the three responses and writes
the cache entry with the current timestamp; the `try` then returns normally, so the
`pendingWeatherRequests.delete` of line 112 — which sits only in the `catch` — does not
run, and the pending table keeps the key, now bound to the resolved promise. -/
def settleWeatherSuccess (now : ℕ) (lat lon : ℚ) (cw fc ap : ρ) (s : ApiState ρ) :
    ApiState ρ :=
  { s with
    weatherCache :=
      mapSet (weatherCacheKey lat lon)
        { data := { currentWeather := cw, forecast := fc, airPollution := ap }
          timestamp := now } s.weatherCache,
    pendingWeatherRequests :=
      resolvePromise (weatherCacheKey lat lon)
        { currentWeather := cw, forecast := fc, airPollution := ap }
        s.pendingWeatherRequests }

/-- Failed settlement of a weather request (api.ts lines 111-114): the `catch` of the
originating caller runs `pendingWeatherRequests.delete(cacheKey)`.  The `.then` never
ran, so the cache is untouched. -/
def settleWeatherFailure (lat lon : ℚ) (s : ApiState ρ) : ApiState ρ :=
  { s with pendingWeatherRequests :=
        mapDelete (weatherCacheKey lat lon) s.pendingWeatherRequests }

/-- One element of `response.data.list` of the `/find` call as `searchCities` reads it
(api.ts lines 149-159): `name`, `sys.country`, `coord.lat`, `coord.lon`. -/
structure RawFindCity where
  name : String
  sysCountry : String
  coordLat : ℚ
  coordLon : ℚ
  deriving DecidableEq

/-- The `response.data.list.map(...)` of api.ts lines 149-160. -/
def mapFindResponse (l : List RawFindCity) : List City :=
  l.map fun c =>
    { name := c.name, country := c.sysCountry, lat := c.coordLat, lon := c.coordLon }

/-- JS `String.prototype.trim()`: strip leading and trailing whitespace. -/
def jsTrim (q : String) : String :=
  String.mk (((q.toList.dropWhile Char.isWhitespace).reverse.dropWhile Char.isWhitespace).reverse)

/-- api.ts lines 137-168 after floor and cache checks: return the pending promise when
one exists, otherwise issue the single `/find` network transaction and register it. -/
def searchCitiesMiss (cacheKey : String) (s : ApiState ρ) :
    FetchResult (List City) × ApiState ρ :=
  match mapGet cacheKey s.pendingCityRequests with
  | some p => (FetchResult.joined p, s)
  | none =>
      (FetchResult.issued s.nextRid,
        { s with pendingCityRequests := mapSet cacheKey (Promise.pending s.nextRid) s.pendingCityRequests
                 nextRid := s.nextRid + 1
                 transactions := s.transactions ++ [s.nextRid] })

/-- `WeatherAPI.searchCities` (api.ts lines 117-176), synchronous part.  The floor
check `!query || query.trim().length < 3` returns `[]` before any table is consulted
(`!query` is truth of the empty string being falsy). -/
def searchCities (now : ℕ) (query : String) (s : ApiState ρ) :
    FetchResult (List City) × ApiState ρ :=
  if query = "" ∨ (jsTrim query).length < 3 then
    (FetchResult.immediate [], s)
  else
    match mapGet (cityCacheKey query) s.cityCache with
    | some cached =>
        if now - cached.timestamp < CACHE_DURATION then
          (FetchResult.immediate cached.data, s)
        else searchCitiesMiss (cityCacheKey query) s
    | none => searchCitiesMiss (cityCacheKey query) s

/-- Successful settlement of a city search (api.ts lines 148-165 and 171): the `.then`
maps the response list to `City` values and writes the cache entry; as with weather,
the `pendingCityRequests.delete` of line 173 sits only in the `catch` and does not run,
so the pending table keeps the key bound to the resolved promise. -/
def settleCitySuccess (now : ℕ) (query : String) (respList : List RawFindCity)
    (s : ApiState ρ) : ApiState ρ :=
  { s with
    cityCache :=
      mapSet (cityCacheKey query)
        { data := mapFindResponse respList, timestamp := now } s.cityCache,
    pendingCityRequests :=
      resolvePromise (cityCacheKey query) (mapFindResponse respList) s.pendingCityRequests }

/-- Failed settlement of a city search (api.ts lines 172-175). -/
def settleCityFailure (query : String) (s : ApiState ρ) : ApiState ρ :=
  { s with pendingCityRequests := mapDelete (cityCacheKey query) s.pendingCityRequests }

/-- A concrete axios transport error (a network failure as axios reports it). -/
def axiosNetworkError : JsError :=
  { isErrorInstance := true
    name := "AxiosError"
    message := "Network Error"
    isAxiosError := true
    responseDataMessage := none }

/-! ## Lemmas about the map model -/

theorem mapGet_mapSet_self (k : String) (v : β) (m : List (String × β)) :
    mapGet k (mapSet k v m) = some v := by
  induction m with
  | nil => simp [mapSet, mapGet]
  | cons kv rest ih =>
      obtain ⟨k', v'⟩ := kv
      by_cases h : k' = k
      · simp [mapSet, mapGet, h]
      · simp [mapSet, mapGet, h, ih]

theorem mapGet_mapDelete_self (k : String) (m : List (String × β)) :
    mapGet k (mapDelete k m) = none := by
  induction m with
  | nil => simp [mapDelete, mapGet]
  | cons kv rest ih =>
      obtain ⟨k', v'⟩ := kv
      by_cases h : k' = k
      · simp [mapDelete, mapGet, h, ih]
      · simp [mapDelete, mapGet, h, ih]

/-! ## Lemmas about the fetch paths -/

/-- With no live cache entry and a pending entry present, `fetchWeatherData` returns
the stored promise and leaves the state untouched (api.ts lines 75-78). -/
theorem fetchWeatherData_pending_hit (now : ℕ) (lat lon : ℚ) (s : ApiState ρ)
    (p : Promise (WeatherData ρ))
    (hc : mapGet (weatherCacheKey lat lon) s.weatherCache = none)
    (hp : mapGet (weatherCacheKey lat lon) s.pendingWeatherRequests = some p) :
    fetchWeatherData now lat lon s = (FetchResult.joined p, s) := by
  unfold fetchWeatherData
  rw [hc]
  unfold fetchWeatherMiss
  rw [hp]

/-- With no live cache entry and no pending entry, `fetchWeatherData` registers a new
pending request and issues one network transaction (api.ts lines 81-110). -/
theorem fetchWeatherData_issue (now : ℕ) (lat lon : ℚ) (s : ApiState ρ)
    (hc : mapGet (weatherCacheKey lat lon) s.weatherCache = none)
    (hp : mapGet (weatherCacheKey lat lon) s.pendingWeatherRequests = none) :
    fetchWeatherData now lat lon s =
      (FetchResult.issued s.nextRid,
        { s with pendingWeatherRequests :=
              mapSet (weatherCacheKey lat lon) (Promise.pending s.nextRid) s.pendingWeatherRequests
                 nextRid := s.nextRid + 1
                 transactions := s.transactions ++ [s.nextRid] }) := by
  unfold fetchWeatherData
  rw [hc]
  unfold fetchWeatherMiss
  rw [hp]
  rfl

/-! ## The claims -/

/-- Claim C1: the claim states that when a fetchWeather (likewise searchCities) request
settles successfully the pending entry for its key is removed, so that afterwards only
the cache holds the result.  The code deletes the pending entry only in the `catch`
path (api.ts lines 112 and 173), so after a successful settlement the pending table
still contains the key, bound to the resolved promise — shown here on a concrete run of
each path: issue a weather fetch for `(1, 2)` (and a city search for `"Paris"`) on empty
tables at time 0, settle it successfully, and find the key still present. -/
theorem C1_pending_survives_success :
    mapHas (weatherCacheKey 1 2)
      (settleWeatherSuccess 0 1 2 10 20 30
        (fetchWeatherData 0 1 2 (initialApiState Nat)).2).pendingWeatherRequests = true ∧
    mapHas (cityCacheKey "Paris")
      (settleCitySuccess 0 "Paris" []
        (searchCities 0 "Paris" (initialApiState Nat)).2).pendingCityRequests = true :=
  ⟨rfl, rfl⟩

/-- Claim C2: the claim states that a call at or after `T + TTL` treats the entry
written at `T` as absent and issues a fresh network transaction.  The cache check does
treat the entry as absent, but because the success path never removed the pending entry
(see C1), the call finds the leftover resolved promise in the pending table, returns
the stale value through it, and issues no new transaction: after a fetch of `(1, 2)`
issued and settled at time 0 (transaction id 0), the call at time `0 + TTL = 300000`
returns the resolved promise carrying the stale data while the transaction log still
holds only transaction 0. -/
theorem C2_stale_served_after_ttl :
    (fetchWeatherData 300000 1 2
      (settleWeatherSuccess 0 1 2 10 20 30
        (fetchWeatherData 0 1 2 (initialApiState Nat)).2)).1
      = FetchResult.joined
          (Promise.resolved 0 { currentWeather := 10, forecast := 20, airPollution := 30 }) ∧
    (fetchWeatherData 300000 1 2
      (settleWeatherSuccess 0 1 2 10 20 30
        (fetchWeatherData 0 1 2 (initialApiState Nat)).2)).2.transactions = [0] :=
  ⟨rfl, rfl⟩

/-- Claim C3: request coalescing.  With no live cache entry for the key: a call finding
a pending entry returns that same promise and changes nothing; from a state with
neither cache nor pending entry, a first call issues exactly one network transaction
and registers the pending promise, a second call before settlement joins that same
pending promise, adds no transaction and changes no state; and on success both the
originating and the joining caller receive the identical snapshot. -/
theorem C3_coalescing (ρ : Type) (s : ApiState ρ) (now now' : ℕ) (lat lon : ℚ)
    (hc : mapGet (weatherCacheKey lat lon) s.weatherCache = none)
    (hp : mapGet (weatherCacheKey lat lon) s.pendingWeatherRequests = none) :
    (∀ s' : ApiState ρ, ∀ p : Promise (WeatherData ρ),
        mapGet (weatherCacheKey lat lon) s'.weatherCache = none →
        mapGet (weatherCacheKey lat lon) s'.pendingWeatherRequests = some p →
        fetchWeatherData now' lat lon s' = (FetchResult.joined p, s')) ∧
    (fetchWeatherData now lat lon s).1 = FetchResult.issued s.nextRid ∧
    (fetchWeatherData now lat lon s).2.transactions = s.transactions ++ [s.nextRid] ∧
    (fetchWeatherData now' lat lon (fetchWeatherData now lat lon s).2).1
      = FetchResult.joined (Promise.pending s.nextRid) ∧
    (fetchWeatherData now' lat lon (fetchWeatherData now lat lon s).2).2
      = (fetchWeatherData now lat lon s).2 ∧
    ∀ d : WeatherData ρ,
      originatorResult (Outcome.success d) = joinerResult (Outcome.success d) := by
  have hjoin : ∀ s' : ApiState ρ, ∀ p : Promise (WeatherData ρ),
      mapGet (weatherCacheKey lat lon) s'.weatherCache = none →
      mapGet (weatherCacheKey lat lon) s'.pendingWeatherRequests = some p →
      fetchWeatherData now' lat lon s' = (FetchResult.joined p, s') :=
    fun s' p hc' hp' => fetchWeatherData_pending_hit now' lat lon s' p hc' hp'
  have hissue := fetchWeatherData_issue now lat lon s hc hp
  have hsecond :
      fetchWeatherData now' lat lon (fetchWeatherData now lat lon s).2
        = (FetchResult.joined (Promise.pending s.nextRid), (fetchWeatherData now lat lon s).2) := by
    apply hjoin
    · rw [hissue]
      exact hc
    · rw [hissue]
      exact mapGet_mapSet_self _ _ _
  refine ⟨hjoin, ?_, ?_, ?_, ?_, fun d => rfl⟩
  · rw [hissue]
  · rw [hissue]
  · rw [hsecond]
  · rw [hsecond]

/-- Witness for C3 on a concrete run: empty tables, coordinates `(1, 2)`. -/
theorem C3_coalescing_witness :
    mapGet (weatherCacheKey 1 2) (initialApiState Nat).weatherCache = none ∧
    mapGet (weatherCacheKey 1 2) (initialApiState Nat).pendingWeatherRequests = none ∧
    (fetchWeatherData 0 1 2 (initialApiState Nat)).1 = FetchResult.issued 0 ∧
    (fetchWeatherData 5 1 2 (fetchWeatherData 0 1 2 (initialApiState Nat)).2).1
      = FetchResult.joined (Promise.pending 0) :=
  ⟨rfl, rfl,
    (C3_coalescing Nat (initialApiState Nat) 0 5 1 2 rfl rfl).2.1,
    (C3_coalescing Nat (initialApiState Nat) 0 5 1 2 rfl rfl).2.2.2.1⟩

/-- Claim C4 counterexample: the claim states that the failure delivered to every
waiter — including callers that joined via the pending table — is the translated error,
never the raw one.  A joining caller is handed the raw promise with no `catch` attached
(api.ts line 77), so on an axios network failure it receives the raw axios error, which
differs from the translated error `handleError` produces. -/
theorem C4_counterexample :
    joinerResult (β := Nat) (Outcome.failure axiosNetworkError)
      = Except.error axiosNetworkError ∧
    joinerResult (β := Nat) (Outcome.failure axiosNetworkError)
      ≠ Except.error (handleError axiosNetworkError) := by
  refine ⟨rfl, ?_⟩
  intro h
  injection h with h'
  exact absurd (congrArg JsError.name h') (by decide)

/-- Claim C4 (amended): when a request fails, the pending entry for its key is removed
(weather and city alike), and the originating caller receives the translated,
classified error; a caller that joined via the pending table, however, receives the
raw underlying rejection, untranslated. -/
theorem C4_amended (ρ : Type) (s : ApiState ρ) (lat lon : ℚ) (q : String) (e : JsError) :
    mapGet (weatherCacheKey lat lon)
      (settleWeatherFailure lat lon s).pendingWeatherRequests = none ∧
    mapGet (cityCacheKey q) (settleCityFailure q s).pendingCityRequests = none ∧
    originatorResult (β := WeatherData ρ) (Outcome.failure e)
      = Except.error (handleError e) ∧
    joinerResult (β := WeatherData ρ) (Outcome.failure e) = Except.error e :=
  ⟨mapGet_mapDelete_self _ _, mapGet_mapDelete_self _ _, rfl, rfl⟩

/-- Claim C5: an abort is classified Cancelled (the AbortError branch of `handleError`
returns the error itself), never TransportFailure; this is what both the originating
and any joining caller receive; the failure settlement removes the pending entry; and
a subsequent call for the same key (whose cache holds no live entry — the aborted
request never wrote one) issues a fresh network transaction. -/
theorem C5_cancellation (ρ : Type) (s : ApiState ρ) (lat lon : ℚ) (now : ℕ)
    (hc : mapGet (weatherCacheKey lat lon) s.weatherCache = none) :
    classifyError abortError = ErrorKind.cancelled ∧
    classifyError abortError ≠ ErrorKind.transport ∧
    originatorResult (β := WeatherData ρ) (Outcome.failure abortError)
      = Except.error abortError ∧
    joinerResult (β := WeatherData ρ) (Outcome.failure abortError)
      = Except.error abortError ∧
    mapGet (weatherCacheKey lat lon)
      (settleWeatherFailure lat lon s).pendingWeatherRequests = none ∧
    (fetchWeatherData now lat lon (settleWeatherFailure lat lon s)).1
      = FetchResult.issued s.nextRid ∧
    (fetchWeatherData now lat lon (settleWeatherFailure lat lon s)).2.transactions
      = s.transactions ++ [s.nextRid] := by
  have hissue := fetchWeatherData_issue now lat lon (settleWeatherFailure lat lon s)
    hc (mapGet_mapDelete_self _ _)
  refine ⟨rfl, by decide, rfl, rfl, mapGet_mapDelete_self _ _, ?_, ?_⟩
  · rw [hissue]
    rfl
  · rw [hissue]
    rfl

/-- Witness for C5 on a concrete run: empty tables, coordinates `(1, 2)`, retry at
time 7. -/
theorem C5_cancellation_witness :
    mapGet (weatherCacheKey 1 2) (initialApiState Nat).weatherCache = none ∧
    classifyError abortError = ErrorKind.cancelled ∧
    (fetchWeatherData 7 1 2 (settleWeatherFailure 1 2 (initialApiState Nat))).1
      = FetchResult.issued 0 :=
  ⟨rfl, (C5_cancellation Nat (initialApiState Nat) 1 2 7 rfl).1,
    (C5_cancellation Nat (initialApiState Nat) 1 2 7 rfl).2.2.2.2.2.1⟩

/-- An action from the safe set keeps the two selection flags from being
simultaneously true. -/
theorem step_flagSetterSafe_mutex (s : WeatherState δ) (a : Action δ)
    (ha : flagSetterSafe a = true)
    (h : (s.isManualSelection && s.geolocationEnabled) = false) :
    ((step s a).isManualSelection && (step s a).geolocationEnabled) = false := by
  cases a with
  | setCoordinates coords => exact h
  | setWeatherData data => exact h
  | setLoading loading => exact h
  | setError e => exact h
  | setLocationDialog b => exact h
  | setManualSelection b =>
      cases b with
      | true => simp [flagSetterSafe] at ha
      | false => simp [step, setManualSelection]
  | setGeolocationEnabled b =>
      cases b with
      | true => simp [flagSetterSafe] at ha
      | false => simp [step, setGeolocationEnabled]
  | setInitialLoad loaded => exact h
  | setSearchQuery query => exact h
  | setCitySuggestions suggestions => exact h
  | setSearching searching => exact h
  | updateLocation lat lon =>
      simp only [step, updateLocation]
      split
      · rfl
      · exact h
  | triggerCurrentLocation => rfl
  | handleLocationPermission allow => cases allow <;> rfl
  | reset => rfl

/-- The safe action set preserves the flag exclusion along any run. -/
theorem runActions_flagSetterSafe_mutex (acts : List (Action δ)) (s : WeatherState δ)
    (hacts : ∀ a ∈ acts, flagSetterSafe a = true)
    (hs : (s.isManualSelection && s.geolocationEnabled) = false) :
    ((runActions acts s).isManualSelection && (runActions acts s).geolocationEnabled)
      = false := by
  induction acts generalizing s with
  | nil => exact hs
  | cons a rest ih =>
      exact ih (step s a) (fun b hb => hacts b (List.mem_cons_of_mem a hb))
        (step_flagSetterSafe_mutex s a (hacts a (List.mem_cons_self a rest)) hs)

/-- Claim C6 counterexample: the claim includes the simple setters in the action set,
but `setManualSelection` and `setGeolocationEnabled` assign their single field without
clearing the other, so the two-action sequence `setManualSelection(true);
setGeolocationEnabled(true)` from the initial state reaches a state with both flags
true. -/
theorem C6_counterexample :
    ((runActions [Action.setManualSelection true, Action.setGeolocationEnabled true]
        (initialState Nat)).isManualSelection &&
      (runActions [Action.setManualSelection true, Action.setGeolocationEnabled true]
        (initialState Nat)).geolocationEnabled) = true :=
  rfl

/-- Claim C6 (amended): in every state reachable from the initial state by sequences of
the store's actions in which the simple setters `setManualSelection` and
`setGeolocationEnabled` are only ever called with argument `false`, the flags
`isManualSelection` and `geolocationEnabled` are never both true; every other action
that sets one of them to true does clear the other. -/
theorem C6_amended (δ : Type) (acts : List (Action δ))
    (hacts : ∀ a ∈ acts, flagSetterSafe a = true) :
    ((runActions acts (initialState δ)).isManualSelection &&
      (runActions acts (initialState δ)).geolocationEnabled) = false :=
  runActions_flagSetterSafe_mutex acts (initialState δ) hacts rfl

/-- Witness for C6 (amended) on a concrete action sequence exercising the complex
actions and a safe use of a simple setter. -/
theorem C6_amended_witness :
    (∀ a ∈ ([Action.updateLocation 50 60, Action.setManualSelection false,
        Action.handleLocationPermission true, Action.triggerCurrentLocation,
        Action.handleLocationPermission false, Action.reset] : List (Action Nat)),
      flagSetterSafe a = true) ∧
    ((runActions [Action.updateLocation 50 60, Action.setManualSelection false,
        Action.handleLocationPermission true, Action.triggerCurrentLocation,
        Action.handleLocationPermission false, Action.reset]
        (initialState Nat)).isManualSelection &&
      (runActions [Action.updateLocation 50 60, Action.setManualSelection false,
        Action.handleLocationPermission true, Action.triggerCurrentLocation,
        Action.handleLocationPermission false, Action.reset]
        (initialState Nat)).geolocationEnabled) = false :=
  ⟨by decide, C6_amended Nat _ (by decide)⟩

/-- Claim C7: `handleLocationPermission(allow)` always hides the dialog; on allow it
enables geolocation, clears manual selection and leaves the coordinates unchanged; on
denial it disables geolocation, sets manual selection and resets the coordinates to the
system default. -/
theorem C7_handleLocationPermission (δ : Type) (s : WeatherState δ) (allow : Bool) :
    (handleLocationPermission allow s).showLocationDialog = false ∧
    (allow = true →
      (handleLocationPermission allow s).geolocationEnabled = true ∧
      (handleLocationPermission allow s).isManualSelection = false ∧
      (handleLocationPermission allow s).coordinates = s.coordinates) ∧
    (allow = false →
      (handleLocationPermission allow s).geolocationEnabled = false ∧
      (handleLocationPermission allow s).isManualSelection = true ∧
      (handleLocationPermission allow s).coordinates = DEFAULT_COORDINATES) := by
  cases allow <;> simp [handleLocationPermission]

/-- Witness for C7 at the initial state, both permission decisions. -/
theorem C7_handleLocationPermission_witness :
    (handleLocationPermission false (initialState Nat)).showLocationDialog = false ∧
    (handleLocationPermission false (initialState Nat)).geolocationEnabled = false ∧
    (handleLocationPermission false (initialState Nat)).isManualSelection = true ∧
    (handleLocationPermission false (initialState Nat)).coordinates = DEFAULT_COORDINATES ∧
    (handleLocationPermission true (initialState Nat)).geolocationEnabled = true ∧
    (handleLocationPermission true (initialState Nat)).isManualSelection = false ∧
    (handleLocationPermission true (initialState Nat)).coordinates
      = (initialState Nat).coordinates :=
  ⟨(C7_handleLocationPermission Nat (initialState Nat) false).1,
    ((C7_handleLocationPermission Nat (initialState Nat) false).2.2 rfl).1,
    ((C7_handleLocationPermission Nat (initialState Nat) false).2.2 rfl).2.1,
    ((C7_handleLocationPermission Nat (initialState Nat) false).2.2 rfl).2.2,
    ((C7_handleLocationPermission Nat (initialState Nat) true).2.1 rfl).1,
    ((C7_handleLocationPermission Nat (initialState Nat) true).2.1 rfl).2.1,
    ((C7_handleLocationPermission Nat (initialState Nat) true).2.1 rfl).2.2⟩

/-- Claim C8: `updateLocation(lat, lon)` with a change of more than `0.000001` on
either axis sets the coordinates, marks manual selection, disables geolocation, marks
the initial load and clears the error; with both axes within tolerance it leaves the
entire state unchanged. -/
theorem C8_updateLocation (δ : Type) (s : WeatherState δ) (lat lon : ℚ) :
    ((|s.coordinates.lat - lat| > 0.000001 ∨ |s.coordinates.lon - lon| > 0.000001) →
      (updateLocation lat lon s).coordinates = { lat := lat, lon := lon } ∧
      (updateLocation lat lon s).isManualSelection = true ∧
      (updateLocation lat lon s).geolocationEnabled = false ∧
      (updateLocation lat lon s).hasInitialLoad = true ∧
      (updateLocation lat lon s).error = none) ∧
    ((|s.coordinates.lat - lat| ≤ 0.000001 ∧ |s.coordinates.lon - lon| ≤ 0.000001) →
      updateLocation lat lon s = s) := by
  constructor
  · intro h
    rw [updateLocation, if_pos h]
    exact ⟨rfl, rfl, rfl, rfl, rfl⟩
  · intro h
    rw [updateLocation, if_neg]
    push_neg
    exact h

/-- Witness for C8: a real move from the default coordinates updates; re-sending the
exact default coordinates is a no-op. -/
theorem C8_updateLocation_witness :
    (updateLocation 50 60 (initialState Nat)).coordinates = { lat := 50, lon := 60 } ∧
    updateLocation DEFAULT_COORDINATES.lat DEFAULT_COORDINATES.lon (initialState Nat)
      = initialState Nat :=
  ⟨((C8_updateLocation Nat (initialState Nat) 50 60).1
      (Or.inl (by
        rw [abs_sub_comm, abs_of_nonneg (by norm_num [initialState, DEFAULT_COORDINATES])]
        norm_num [initialState, DEFAULT_COORDINATES]))).1,
    (C8_updateLocation Nat (initialState Nat) DEFAULT_COORDINATES.lat DEFAULT_COORDINATES.lon).2
      ⟨by norm_num [initialState], by norm_num [initialState]⟩⟩

/-- Claim C9: a query whose trimmed form has fewer than 3 characters makes
`searchCities` return the empty list at once with the whole module state — both caches,
both pending tables and the transaction log — untouched. -/
theorem C9_search_floor (ρ : Type) (s : ApiState ρ) (now : ℕ) (query : String)
    (h : (jsTrim query).length < 3) :
    searchCities now query s = (FetchResult.immediate [], s) := by
  rw [searchCities, if_pos (Or.inr h)]

/-- Witness for C9: the two-character query `"Pa"` on empty tables. -/
theorem C9_search_floor_witness :
    (jsTrim "Pa").length < 3 ∧
    searchCities 0 "Pa" (initialApiState Nat)
      = (FetchResult.immediate [], initialApiState Nat) :=
  ⟨by decide, C9_search_floor Nat (initialApiState Nat) 0 "Pa" (by decide)⟩

/-- Claim C10: `handleLocationPermission` also sets `hasInitialLoad` to true, for
either permission decision. -/
theorem C10_hasInitialLoad (δ : Type) (s : WeatherState δ) (allow : Bool) :
    (handleLocationPermission allow s).hasInitialLoad = true :=
  rfl

end WeatherCast
